import Mathlib

/-!
Shallow embedding of src/gnre_automacao/gnre_xml.py.

Python strings are modelled by Lean String, with list-of-character
implementations of the string library calls (strip, upper, isdigit,
slicing) so that every definition evaluates inside the kernel.
The decimal.Decimal values produced by the helper _dec are modelled by
the type Dec below: an exact pair of an integer coefficient and a power
of ten, which matches the arbitrary-precision decimal semantics of the
source for the parse / add / compare / format operations it performs
(the 28-digit context limit and the sign of a rounded zero are not
modelled; no claim depends on them).  The ElementTree XML trees are
modelled by the inductive type Elem; serialization to a byte string is
a mechanical step and the claims are stated on the tree.  ValueError
raised by _require is modelled by Except.error carrying the message.
-/

namespace Gnre

/-- Python truthiness test for an optional string: None and "" are falsy. -/
def strTruthy : Option String → Bool
  | none => false
  | some s => s != ""

/-- The Python idiom (a or b) on an optional string with a string default. -/
def pyOr (a : Option String) (b : String) : String :=
  match a with
  | none => b
  | some s => if s == "" then b else s

/-- Length of a Python string in characters. -/
def pyLen (s : String) : Nat := s.data.length

/-- Python str.strip(): remove leading and trailing whitespace. -/
def pyStrip (s : String) : String :=
  String.mk (((s.data.dropWhile Char.isWhitespace).reverse.dropWhile Char.isWhitespace).reverse)

/-- Python str.upper() on the ASCII state and status codes used by the source. -/
def pyUpper (s : String) : String := String.mk (s.data.map Char.toUpper)

/-- Python str.isdigit(): non-empty and every character a digit (ASCII digits here). -/
def pyIsdigit (s : String) : Bool := !s.data.isEmpty && s.data.all Char.isDigit

/-- The helper _digits of the source: keep only the digit characters of (s or ""). -/
def _digits (s : Option String) : String :=
  String.mk ((pyOr s "").data.filter Char.isDigit)

/-- Python slicing s[a:b] on character lists (as used for dtven[5:7] and dtven[0:4]). -/
def pySlice (s : String) (a b : Nat) : String :=
  String.mk ((s.data.drop a).take (b - a))

/-- Exact decimal number: coefficient m times ten to the power e.
This models the decimal.Decimal values flowing through the source. -/
structure Dec where
  m : Int
  e : Int
deriving DecidableEq, Repr

/-- Exact addition of decimals, aligning the exponents (Decimal.__add__). -/
def Dec.add (a b : Dec) : Dec :=
  if a.e ≤ b.e then ⟨a.m + b.m * 10 ^ (b.e - a.e).toNat, a.e⟩
  else ⟨a.m * 10 ^ (a.e - b.e).toNat + b.m, b.e⟩

/-- The comparison d > Decimal("0") of the source: the sign of the coefficient. -/
def Dec.isPos (d : Dec) : Bool := decide (0 < d.m)

/-- The comparison d >= Decimal("0.00") of the source. -/
def Dec.nonneg (d : Dec) : Bool := decide (0 ≤ d.m)

/-- Value of a decimal scaled to cents, rounded half-to-even; this is the
quantization step of the Python format specification .2f on a Decimal. -/
def Dec.cents (d : Dec) : Int :=
  if -2 ≤ d.e then d.m * 10 ^ (d.e + 2).toNat
  else
    let p : Int := 10 ^ (-(d.e + 2)).toNat
    let q := d.m.fdiv p
    let r := d.m.fmod p
    if 2 * r < p then q
    else if p < 2 * r then q + 1
    else if q % 2 == 0 then q else q + 1

/-- Two-digit zero-padded rendering of a number below 100. -/
def pad2 (n : Nat) : String := if n < 10 then "0" ++ toString n else toString n

/-- The Python f-string format {d:.2f} on a Decimal: the value rounded
half-to-even to two fraction digits. -/
def fmt2 (d : Dec) : String :=
  let c := d.cents
  let a := c.natAbs
  let s := toString (a / 100) ++ "." ++ pad2 (a % 100)
  if c < 0 then "-" ++ s else s

/-- Numeric value of a list of ASCII digit characters. -/
def natOfDigits (cs : List Char) : Nat := cs.foldl (fun a c => a * 10 + (c.toNat - 48)) 0

/-- Parse of the mantissa part of a decimal literal: digits with an optional
single point, at least one digit overall. -/
def parseUnsignedMantissa (cs : List Char) : Option Dec :=
  let intPart := cs.takeWhile Char.isDigit
  let rest := cs.dropWhile Char.isDigit
  match rest with
  | [] => if intPart.isEmpty then none else some ⟨natOfDigits intPart, 0⟩
  | '.' :: frac =>
    if frac.all Char.isDigit && !(intPart.isEmpty && frac.isEmpty) then
      some ⟨natOfDigits (intPart ++ frac), -(frac.length : Int)⟩
    else none
  | _ => none

/-- Parse of an optionally signed run of digits (the exponent of a decimal literal). -/
def parseSignedInt (cs : List Char) : Option Int :=
  let sgds : Int × List Char :=
    match cs with
    | '+' :: r => (1, r)
    | '-' :: r => (-1, r)
    | r => (1, r)
  if !sgds.2.isEmpty && sgds.2.all Char.isDigit then
    some (sgds.1 * (natOfDigits sgds.2 : Int))
  else none

/-- Modelled from the library call decimal.Decimal(s): accepts an optionally
signed decimal literal with an optional exponent part, surrounded by optional
whitespace; other strings (and the special values NaN and Infinity, which the
source never feeds into arithmetic) are rejected. -/
def pyDecimalParse (s : String) : Option Dec :=
  let cs := (pyStrip s).data
  let sgcs : Int × List Char :=
    match cs with
    | '+' :: r => (1, r)
    | '-' :: r => (-1, r)
    | r => (1, r)
  let mant := sgcs.2.takeWhile (fun c => !(c == 'e' || c == 'E'))
  let rest := sgcs.2.drop mant.length
  let expv : Option Int :=
    match rest with
    | [] => some 0
    | _ :: ex => parseSignedInt ex
  match parseUnsignedMantissa mant, expv with
  | some d, some ex => some ⟨sgcs.1 * d.m, d.e + ex⟩
  | _, _ => none

/-- The helper _dec of the source: None and "" give zero, and a string that
does not parse as a decimal also gives zero (the except branch). -/
def _dec (value : Option String) : Dec :=
  match value with
  | none => ⟨0, 0⟩
  | some s => if s == "" then ⟨0, 0⟩ else (pyDecimalParse s).getD ⟨0, 0⟩

/-- The helper _mun5 of the source: normalization of a municipality code to
its five-digit form, applied to the digit characters of the input. -/
def _mun5 (cmun : Option String) : Option String :=
  if !strTruthy cmun then none
  else
    let s := _digits cmun
    if pyLen s == 7 then some (pySlice s 2 7)
    else if pyLen s == 5 then some s
    else if 5 < pyLen s then some (String.mk (s.data.drop (pyLen s - 5)))
    else none

/-- Leap-year rule of the Gregorian calendar (datetime). -/
def isLeap (y : Nat) : Bool := y % 4 == 0 && (y % 100 != 0 || y % 400 == 0)

/-- Number of days of a month (datetime). -/
def daysInMonth (y m : Nat) : Nat :=
  if m == 2 then (if isLeap y then 29 else 28)
  else if m == 4 || m == 6 || m == 9 || m == 11 then 30 else 31

/-- Validity of a ten-character calendar date YYYY-MM-DD (datetime.date). -/
def validYMD (cs : List Char) : Bool :=
  match cs with
  | [y1, y2, y3, y4, '-', m1, m2, '-', d1, d2] =>
    [y1, y2, y3, y4, m1, m2, d1, d2].all Char.isDigit &&
    (let y := natOfDigits [y1, y2, y3, y4]
     let m := natOfDigits [m1, m2]
     let d := natOfDigits [d1, d2]
     decide (1 ≤ y) && decide (1 ≤ m) && decide (m ≤ 12) &&
     decide (1 ≤ d) && decide (d ≤ daysInMonth y m))
  | _ => false

/-- After the date portion, an ISO string may end or continue with a time part. -/
def tailAfterDateOk (cs : List Char) : Bool :=
  match cs with
  | [] => true
  | 'T' :: _ => true
  | ' ' :: _ => true
  | _ => false

/-- The helper _date_only of the source.  The library call
datetime.fromisoformat is modelled as: the first ten characters must form a
valid calendar date, followed by nothing or by a time part introduced by the
T or space separator (the time part itself is not re-validated); the result
is the date portion.  None, the empty string and non-parsing strings give None. -/
def _date_only (iso : Option String) : Option String :=
  match iso with
  | none => none
  | some s =>
    if s == "" then none
    else
      let cs := s.data
      if validYMD (cs.take 10) && tailAfterDateOk (cs.drop 10) then
        some (String.mk (cs.take 10))
      else none

/-- The dictionary of invoice fields read by the source (dados_nfe); the
source reads exactly these keys, each an optional string. -/
structure DadosNfe where
  uf_destinatario : Option String
  uf_emitente : Option String
  valor_vST : Option String
  valor_vICMSUFDest : Option String
  valor_vFCPUFDest : Option String
  valor_vFCPST : Option String
  emitente_cnpj : Option String
  emitente_cpf : Option String
  emitente_ie : Option String
  emitente_nome : Option String
  emitente_endereco : Option String
  emitente_cod_mun : Option String
  emitente_cep : Option String
  emitente_telefone : Option String
  chave_nfe : Option String
  numero_nf : Option String
  data_emissao : Option String
  destinatario_cnpj : Option String
  destinatario_cpf : Option String
  destinatario_nome : Option String
  destinatario_cod_mun : Option String
deriving DecidableEq, Repr

/-- An invoice record with every field absent, for concrete instantiations. -/
def emptyNfe : DadosNfe :=
  ⟨none, none, none, none, none, none, none, none, none, none, none,
   none, none, none, none, none, none, none, none, none, none⟩

/-- Result dictionary of evaluate_gnre_need. -/
structure EvalResult where
  receita : Option String
  valor_principal : String
  valor_fcp : String
  valor_total_item : String
  necessario : String
deriving DecidableEq, Repr

/-- The revenue-code resolution step of evaluate_gnre_need (lines 55-60):
a six-digit numeric hint is kept verbatim, otherwise the code is inferred
from the positive tax amounts, otherwise the (possibly invalid) hint remains. -/
def resolveReceitaEval (receita : Option String) (vICMSUF vST : Dec) : String :=
  let r := pyOr receita ""
  if pyIsdigit r && pyLen r == 6 then r
  else if vICMSUF.isPos then "100102"
  else if vST.isPos then "100099"
  else r

/-- The principal-value resolution step of evaluate_gnre_need (lines 61-69). -/
def resolvePrincipalEval (r : String) (valor_principal : Option String) (vICMSUF vST : Dec) : Dec :=
  match valor_principal with
  | some vp => _dec (some vp)
  | none =>
    if r == "100102" then vICMSUF
    else if r == "100099" || r == "100048" then vST
    else Dec.add vST vICMSUF

/-- The manual-handling condition of evaluate_gnre_need (line 72). -/
def manualFlag (d : DadosNfe) (receita valor_principal : Option String) : Bool :=
  let uf_dest := pyUpper (pyStrip (pyOr d.uf_destinatario ""))
  let uf_emit := pyUpper (pyStrip (pyOr d.uf_emitente ""))
  let vICMSUF := _dec d.valor_vICMSUFDest
  let vST := _dec d.valor_vST
  let r := resolveReceitaEval receita vICMSUF vST
  let vprincipal := resolvePrincipalEval r valor_principal vICMSUF vST
  let vFCP_total := Dec.add (_dec d.valor_vFCPUFDest) (_dec d.valor_vFCPST)
  (uf_dest == "SP" || uf_dest == "ES") && uf_emit != "" && uf_emit != uf_dest &&
    (Dec.add vprincipal vFCP_total).isPos

/-- The function evaluate_gnre_need of the source (lines 44-79). -/
def evaluate_gnre_need (d : DadosNfe) (receita valor_principal : Option String) : EvalResult :=
  let vICMSUF := _dec d.valor_vICMSUFDest
  let vST := _dec d.valor_vST
  let r := resolveReceitaEval receita vICMSUF vST
  let vprincipal := resolvePrincipalEval r valor_principal vICMSUF vST
  let vFCP_total := Dec.add (_dec d.valor_vFCPUFDest) (_dec d.valor_vFCPST)
  let v_total_item := Dec.add vprincipal vFCP_total
  let manual := manualFlag d receita valor_principal
  { receita := if manual then none else (if r == "" then none else some r),
    valor_principal := fmt2 vprincipal,
    valor_fcp := fmt2 vFCP_total,
    valor_total_item := fmt2 v_total_item,
    necessario := if manual then "M" else if v_total_item.isPos then "S" else "N" }

/-- An XML element: tag, attributes, optional text, children.  The namespace
of every element of the source is the fixed GNRE URI, so tags carry the local
name only. -/
inductive Elem where
  | el (tag : String) (attrs : List (String × String)) (text : Option String) (children : List Elem)

def Elem.tagOf : Elem → String
  | .el t _ _ _ => t

def Elem.attrsOf : Elem → List (String × String)
  | .el _ a _ _ => a

def Elem.textOf : Elem → Option String
  | .el _ _ tx _ => tx

def Elem.childrenOf : Elem → List Elem
  | .el _ _ _ cs => cs

/-- The direct children of an element that carry a given tag. -/
def childrenNamed (e : Elem) (t : String) : List Elem :=
  e.childrenOf.filter (fun c => c.tagOf == t)

/-- The first direct child with a given tag, if any. -/
def childNamed (e : Elem) (t : String) : Option Elem :=
  (childrenNamed e t).head?

/-- Texts of the valor children of an item that carry a given tipo attribute. -/
def valorTexts (item : Elem) (tipo : String) : List (Option String) :=
  (item.childrenOf.filter
    (fun c => c.tagOf == "valor" && c.attrsOf.contains ("tipo", tipo))).map Elem.textOf

/-- The revenue-code resolution of build_lote_xml (lines 96-107): unlike the
evaluator, a failure to infer a code is a hard error. -/
def loteReceita (d : DadosNfe) (receita : String) : Except String String :=
  if receita != "" && pyIsdigit receita && pyLen receita == 6 then .ok receita
  else if (_dec d.valor_vICMSUFDest).isPos then .ok "100102"
  else if (_dec d.valor_vST).isPos then .ok "100099"
  else .error "receita deve ter 6 dígitos ou ser dedutível pelos valores da NF-e"

/-- The principal-value selection of build_lote_xml (lines 116-128). -/
def lotePrincipal (d : DadosNfe) (receita : String) (valor_principal : Option String) : Dec :=
  match valor_principal with
  | some vp => _dec (some vp)
  | none =>
    if receita == "100102" then _dec d.valor_vICMSUFDest
    else if receita == "100099" then _dec d.valor_vST
    else if receita == "100048" then _dec d.valor_vST
    else Dec.add (_dec d.valor_vST) (_dec d.valor_vICMSUFDest)

/-- The validation prelude of build_lote_xml (lines 93-132), in source order:
favored state, revenue resolution, the repeated six-digit check, issuer
identification, invoice key, and non-negativity of the resolved principal.
On success it returns the resolved favored state, revenue code, stripped
invoice key and principal value, all computed exactly as in the source. -/
def loteValidate (d : DadosNfe) (uf_favorecida : Option String) (receita0 : String)
    (valor_principal : Option String) : Except String (String × String × String × Dec) :=
  let uf := pyStrip (pyOr uf_favorecida (pyOr d.uf_destinatario ""))
  if uf == "" then .error "ufFavorecida é obrigatória" else
  match loteReceita d receita0 with
  | .error e => .error e
  | .ok receita =>
    if !(receita != "" && pyLen receita == 6 && pyIsdigit receita) then
      .error "receita deve ter 6 dígitos"
    else if !(strTruthy d.emitente_cnpj || strTruthy d.emitente_cpf) then
      .error "Emitente deve possuir CNPJ ou CPF"
    else
      let chave := pyStrip (pyOr d.chave_nfe "")
      if !(chave != "" && pyIsdigit chave && decide (1 ≤ pyLen chave) &&
            decide (pyLen chave ≤ 44)) then
        .error "documentoOrigem inválido"
      else
        let vprincipal := lotePrincipal d receita valor_principal
        if !vprincipal.nonneg then .error "valor principal inválido"
        else .ok (uf, receita, chave, vprincipal)

/-- The identificacao block of the issuer (lines 149-160). -/
def loteIdentificacao (d : DadosNfe) (uf : String) : Elem :=
  Elem.el "identificacao" [] none
    ((if strTruthy d.emitente_cnpj then [Elem.el "CNPJ" [] d.emitente_cnpj []]
      else if strTruthy d.emitente_cpf then [Elem.el "CPF" [] d.emitente_cpf []]
      else [])
     ++ (if strTruthy d.emitente_ie && d.uf_emitente == some uf then
          [Elem.el "IE" [] d.emitente_ie []]
         else []))

/-- The contribuinteEmitente block (lines 148-181). -/
def loteContribEmit (d : DadosNfe) (uf : String) (razao_social_emitente : Option String) : Elem :=
  Elem.el "contribuinteEmitente" [] none
    ([loteIdentificacao d uf]
     ++ (if strTruthy razao_social_emitente then
          [Elem.el "razaoSocial" [] razao_social_emitente []]
         else if strTruthy d.emitente_nome then
          [Elem.el "razaoSocial" [] d.emitente_nome []]
         else [])
     ++ (if strTruthy d.emitente_endereco then [Elem.el "endereco" [] d.emitente_endereco []] else [])
     ++ (if strTruthy d.emitente_cod_mun then
          [Elem.el "municipio" [] (_mun5 d.emitente_cod_mun) []]
         else [])
     ++ (if strTruthy d.uf_emitente then [Elem.el "uf" [] d.uf_emitente []] else [])
     ++ (if strTruthy d.emitente_cep then [Elem.el "cep" [] d.emitente_cep []] else [])
     ++ (if strTruthy d.emitente_telefone then [Elem.el "telefone" [] d.emitente_telefone []] else []))

/-- The contribuinteDestinatario block (lines 218-232). -/
def loteDestinatario (d : DadosNfe) : Elem :=
  Elem.el "contribuinteDestinatario" [] none
    ([Elem.el "identificacao" [] none
       (if strTruthy d.destinatario_cnpj then [Elem.el "CNPJ" [] d.destinatario_cnpj []]
        else if strTruthy d.destinatario_cpf then [Elem.el "CPF" [] d.destinatario_cpf []]
        else [])]
     ++ (if strTruthy d.destinatario_nome then [Elem.el "razaoSocial" [] d.destinatario_nome []] else [])
     ++ (if strTruthy d.destinatario_cod_mun then
          [Elem.el "municipio" [] (_mun5 d.destinatario_cod_mun) []]
         else []))

/-- The camposExtras block carrying the invoice key under code 107 (lines 240-245). -/
def campo107Elem (chave : String) : Elem :=
  Elem.el "camposExtras" [] none
    [Elem.el "campoExtra" [] none
      [Elem.el "codigo" [] (some "107") [],
       Elem.el "valor" [] (some (_digits (some chave))) []]]

/-- The item element of the guide (lines 184-245), with the children in the
order the source appends them; the camposExtras block is appended last. -/
def loteItemElem (d : DadosNfe) (receita chave : String) (vprincipal : Dec)
    (detalhamento_receita produto doc_origem_tipo : Option String)
    (incluir_campo_107 : Bool) (dtven : String) : Elem :=
  let vFCP_total := Dec.add (_dec d.valor_vFCPUFDest) (_dec d.valor_vFCPST)
  Elem.el "item" [] none
    ([Elem.el "receita" [] (some receita) []]
     ++ (if strTruthy detalhamento_receita then
          [Elem.el "detalhamentoReceita" [] detalhamento_receita []]
         else [])
     ++ (if strTruthy produto then [Elem.el "produto" [] produto []] else [])
     ++ [Elem.el "documentoOrigem" [("tipo", pyStrip (pyOr doc_origem_tipo "10"))]
          (some (_digits (some (pyOr d.numero_nf chave)))) []]
     ++ [Elem.el "referencia" [] none
          [Elem.el "periodo" [] (some "0") [],
           Elem.el "mes" [] (some (pySlice dtven 5 7)) [],
           Elem.el "ano" [] (some (pySlice dtven 0 4)) []]]
     ++ [Elem.el "dataVencimento" [] (some dtven) []]
     ++ [Elem.el "valor" [("tipo", "11")] (some (fmt2 vprincipal)) []]
     ++ [Elem.el "valor" [("tipo", "21")] (some (fmt2 (Dec.add vprincipal vFCP_total))) []]
     ++ (if vFCP_total.isPos then
          [Elem.el "valor" [("tipo", "27")] (some (fmt2 vFCP_total)) []]
         else [])
     ++ (if strTruthy d.destinatario_cnpj || strTruthy d.destinatario_cpf then
          [loteDestinatario d]
         else [])
     ++ (if incluir_campo_107 && chave != "" && pyLen (_digits (some chave)) == 44 then
          [campo107Elem chave]
         else []))

/-- The TDadosGNRE guide element (lines 140-245). -/
def loteGuiaElem (d : DadosNfe) (uf receita chave : String) (vprincipal : Dec)
    (detalhamento_receita produto doc_origem_tipo : Option String)
    (incluir_campo_107 : Bool) (razao_social_emitente data_pagamento : Option String)
    (dtven : String) : Elem :=
  let vFCP_total := Dec.add (_dec d.valor_vFCPUFDest) (_dec d.valor_vFCPST)
  Elem.el "TDadosGNRE" [("versao", "2.00")] none
    ([Elem.el "ufFavorecida" [] (some uf) [],
      Elem.el "tipoGnre" [] (some "0") [],
      loteContribEmit d uf razao_social_emitente,
      Elem.el "itensGNRE" [] none
        [loteItemElem d receita chave vprincipal detalhamento_receita produto
          doc_origem_tipo incluir_campo_107 dtven],
      Elem.el "valorGNRE" [] (some (fmt2 (Dec.add vprincipal vFCP_total))) []]
     ++ (if strTruthy data_pagamento then [Elem.el "dataPagamento" [] data_pagamento []] else []))

/-- The function build_lote_xml of the source (lines 80-248).  The ambient
current date read by datetime.now() is passed explicitly as the parameter
today, so the dependence of the source on ambient state is visible in the
embedding.  The serialized result is represented by the element tree. -/
def build_lote_xml (d : DadosNfe) (uf_favorecida : Option String) (receita0 : String)
    (detalhamento_receita produto doc_origem_tipo : Option String)
    (incluir_campo_107 : Bool)
    (valor_principal data_vencimento razao_social_emitente data_pagamento : Option String)
    (today : String) : Except String Elem :=
  match loteValidate d uf_favorecida receita0 valor_principal with
  | .error e => .error e
  | .ok (uf, receita, chave, vprincipal) =>
    let dtven := pyOr data_vencimento (pyOr (_date_only d.data_emissao) today)
    .ok (Elem.el "TLote_GNRE" [("versao", "2.00")] none
      [Elem.el "guias" [] none
        [loteGuiaElem d uf receita chave vprincipal detalhamento_receita produto
          doc_origem_tipo incluir_campo_107 razao_social_emitente data_pagamento dtven]])

/-- The function build_lote_consulta_xml of the source (lines 250-291). -/
def build_lote_consulta_xml (uf tipo_consulta : String)
    (doc_origem doc_tipo cod_barras num_controle : Option String)
    (emitente_cnpj emitente_cpf emitente_ie : Option String) : Except String Elem :=
  if uf == "" then .error "uf obrigatória"
  else if !(tipo_consulta == "C" || tipo_consulta == "N" || tipo_consulta == "D" ||
            tipo_consulta == "CD" || tipo_consulta == "ND" || tipo_consulta == "CR" ||
            tipo_consulta == "NR") then
    .error "tipoConsulta inválido"
  else
    .ok (Elem.el "TLote_ConsultaGNRE" [("versao", "2.00")] none
      [Elem.el "consulta" [] none
        ([Elem.el "uf" [] (some uf) []]
         ++ (if strTruthy emitente_cnpj || strTruthy emitente_cpf || strTruthy emitente_ie then
              [Elem.el "emitenteId" [] none
                ((if strTruthy emitente_cnpj then [Elem.el "CNPJ" [] emitente_cnpj []] else [])
                 ++ (if strTruthy emitente_cpf then [Elem.el "CPF" [] emitente_cpf []] else [])
                 ++ (if strTruthy emitente_ie then [Elem.el "IE" [] emitente_ie []] else []))]
             else [])
         ++ (if strTruthy cod_barras then [Elem.el "codBarras" [] cod_barras []] else [])
         ++ (if strTruthy num_controle then [Elem.el "numControle" [] num_controle []] else [])
         ++ (if strTruthy doc_origem && strTruthy doc_tipo then
              [Elem.el "docOrigem" [("tipo", pyOr doc_tipo "")] doc_origem []]
             else [])
         ++ [Elem.el "tipoConsulta" [] (some tipo_consulta) []])])

/-- The function build_consulta_resultado_xml of the source (lines 293-316).
The source performs no validation here: the function is total and the two
mandatory-looking parameters are written into the tree unchecked. -/
def build_consulta_resultado_xml (ambiente numero_recibo : String)
    (incluir_pdf incluir_arquivo_pagamento incluir_noticias : Bool) : Elem :=
  Elem.el "TConsLote_GNRE" [] none
    ([Elem.el "ambiente" [] (some ambiente) [],
      Elem.el "numeroRecibo" [] (some numero_recibo) []]
     ++ (if incluir_pdf then [Elem.el "incluirPDFGuias" [] (some "S") []] else [])
     ++ (if incluir_arquivo_pagamento then
          [Elem.el "incluirArquivoPagamento" [] (some "S") []]
         else [])
     ++ (if incluir_noticias then [Elem.el "incluirNoticias" [] (some "S") []] else []))

/-- The function build_consulta_config_uf_xml of the source (lines 318-337). -/
def build_consulta_config_uf_xml (ambiente uf : String)
    (receita tipos_gnre : Option String) : Elem :=
  Elem.el "TConsultaConfigUf" [] none
    ([Elem.el "ambiente" [] (some ambiente) [],
      Elem.el "uf" [] (some uf) []]
     ++ (if strTruthy receita then [Elem.el "receita" [] receita []] else [])
     ++ (if tipos_gnre == some "S" || tipos_gnre == some "N" then
          [Elem.el "tiposGnre" [] tipos_gnre []]
         else []))

/-- Navigation from the root of a submission lot to its single item element. -/
def loteItem (lote : Elem) : Option Elem :=
  (((childNamed lote "guias").bind (fun g => childNamed g "TDadosGNRE")).bind
    (fun g => childNamed g "itensGNRE")).bind (fun i => childNamed i "item")

/-- Navigation from the root of a submission lot to the issuer block. -/
def loteEmitente (lote : Elem) : Option Elem :=
  ((childNamed lote "guias").bind (fun g => childNamed g "TDadosGNRE")).bind
    (fun g => childNamed g "contribuinteEmitente")

/-- The element of a successful build, for closed instantiations. -/
def okElem (r : Except String Elem) : Elem :=
  match r with
  | .ok e => e
  | .error _ => Elem.el "" [] none []

/-- Observation of a built lot: the text of its dataVencimento element. -/
def okDtvenText (r : Except String Elem) : Option String :=
  match r with
  | .ok lote => ((loteItem lote).bind (fun it => childNamed it "dataVencimento")).bind Elem.textOf
  | .error _ => none

/-- Observation of a built lot: the texts of the municipio elements of the issuer block. -/
def okEmitMunTexts (r : Except String Elem) : Option (List (Option String)) :=
  match r with
  | .ok lote => (loteEmitente lote).map (fun ce => (childrenNamed ce "municipio").map Elem.textOf)
  | .error _ => none

/-- Invoice with only an inter-state ICMS-destination amount, for witnesses. -/
def nfeIcms : DadosNfe := { emptyNfe with valor_vICMSUFDest := some "15.00" }

/-- Invoice triggering the manual-handling rule: destination SP, issuer MG,
positive inter-state ICMS-destination amount. -/
def nfeManual : DadosNfe :=
  { emptyNfe with valor_vICMSUFDest := some "15.00", uf_destinatario := some "SP",
                  uf_emitente := some "MG" }

/-- Complete invoice accepted by the submission builder: issuer CNPJ, a
44-digit key and a positive inter-state ICMS-destination amount. -/
def nfeBuild : DadosNfe :=
  { emptyNfe with emitente_cnpj := some "12345678000199",
                  chave_nfe := some "12345678901234567890123456789012345678901234",
                  valor_vICMSUFDest := some "15.00" }

/-- Complete invoice with every tax amount absent (zero). -/
def nfeZero : DadosNfe :=
  { emptyNfe with emitente_cnpj := some "12345678000199",
                  chave_nfe := some "12345678901234567890123456789012345678901234" }

/-- Complete invoice whose issuer municipality field holds only three digits,
so that normalization yields absence. -/
def nfeMun : DadosNfe :=
  { emptyNfe with emitente_cnpj := some "12345678000199",
                  chave_nfe := some "12345678901234567890123456789012345678901234",
                  valor_vICMSUFDest := some "15.00",
                  emitente_cod_mun := some "123" }

/-- Complete invoice with a positive FCP-destination amount. -/
def nfeFcp : DadosNfe :=
  { emptyNfe with emitente_cnpj := some "12345678000199",
                  chave_nfe := some "12345678901234567890123456789012345678901234",
                  valor_vICMSUFDest := some "15.00",
                  valor_vFCPUFDest := some "2.50" }

/-- The status of the evaluator result is M exactly when the manual flag of
line 72 is set: the two other branches produce S or N. -/
theorem necessario_eq_M_iff (d : DadosNfe) (receita valor_principal : Option String) :
    (evaluate_gnre_need d receita valor_principal).necessario = "M" ↔
      manualFlag d receita valor_principal = true := by
  cases hm : manualFlag d receita valor_principal <;>
    simp [evaluate_gnre_need, hm] <;> split <;> simp

/-- Unfolding of the manual-handling condition into its four conjuncts. -/
theorem manualFlag_iff (d : DadosNfe) (receita valor_principal : Option String) :
    manualFlag d receita valor_principal = true ↔
      ((pyUpper (pyStrip (pyOr d.uf_destinatario "")) = "SP" ∨
        pyUpper (pyStrip (pyOr d.uf_destinatario "")) = "ES") ∧
       pyUpper (pyStrip (pyOr d.uf_emitente "")) ≠ "" ∧
       pyUpper (pyStrip (pyOr d.uf_emitente "")) ≠ pyUpper (pyStrip (pyOr d.uf_destinatario "")) ∧
       (Dec.add
         (resolvePrincipalEval
           (resolveReceitaEval receita (_dec d.valor_vICMSUFDest) (_dec d.valor_vST))
           valor_principal (_dec d.valor_vICMSUFDest) (_dec d.valor_vST))
         (Dec.add (_dec d.valor_vFCPUFDest) (_dec d.valor_vFCPST))).isPos = true) := by
  simp only [manualFlag, Bool.and_eq_true, Bool.or_eq_true, beq_iff_eq, bne_iff_ne]
  tauto

/-- C1: the evaluator reports manual handling (status M) exactly when the
destination state is SP or ES, the issuer state is non-empty and differs from
the destination state, and the computed total (principal plus FCP total) is
positive; and whenever it does, the returned revenue code is suppressed to
null regardless of the code the resolution rule produced. -/
theorem c1_manual_handling (d : DadosNfe) (receita valor_principal : Option String) :
    ((evaluate_gnre_need d receita valor_principal).necessario = "M" ↔
      ((pyUpper (pyStrip (pyOr d.uf_destinatario "")) = "SP" ∨
        pyUpper (pyStrip (pyOr d.uf_destinatario "")) = "ES") ∧
       pyUpper (pyStrip (pyOr d.uf_emitente "")) ≠ "" ∧
       pyUpper (pyStrip (pyOr d.uf_emitente "")) ≠ pyUpper (pyStrip (pyOr d.uf_destinatario "")) ∧
       (Dec.add
         (resolvePrincipalEval
           (resolveReceitaEval receita (_dec d.valor_vICMSUFDest) (_dec d.valor_vST))
           valor_principal (_dec d.valor_vICMSUFDest) (_dec d.valor_vST))
         (Dec.add (_dec d.valor_vFCPUFDest) (_dec d.valor_vFCPST))).isPos = true)) ∧
    ((evaluate_gnre_need d receita valor_principal).necessario = "M" →
      (evaluate_gnre_need d receita valor_principal).receita = none) := by
  refine ⟨(necessario_eq_M_iff d receita valor_principal).trans (manualFlag_iff d receita valor_principal), ?_⟩
  intro h
  have hm : manualFlag d receita valor_principal = true :=
    (necessario_eq_M_iff d receita valor_principal).mp h
  simp [evaluate_gnre_need, hm]

/-- Witness for C1 at a concrete manual-handling invoice. -/
theorem c1_witness :
    (evaluate_gnre_need nfeManual none none).receita = none ∧
    (evaluate_gnre_need nfeManual none none).necessario = "M" := by
  have h := c1_manual_handling nfeManual none none
  have hM : (evaluate_gnre_need nfeManual none none).necessario = "M" := h.1.mpr (by decide)
  exact ⟨h.2 hM, hM⟩

/-- C2: when the inter-state ICMS-destination amount is positive, the hint is
not a six-digit numeric string and no principal override is supplied, the
resolution rule selects the revenue code 100102 and the evaluator returns as
principal the inter-state ICMS-destination amount formatted with two fraction
digits. -/
theorem c2_difal_resolution (d : DadosNfe) (receita : Option String)
    (hIcms : (_dec d.valor_vICMSUFDest).isPos = true)
    (hHint : (pyIsdigit (pyOr receita "") && pyLen (pyOr receita "") == 6) = false) :
    resolveReceitaEval receita (_dec d.valor_vICMSUFDest) (_dec d.valor_vST) = "100102" ∧
    (evaluate_gnre_need d receita none).valor_principal = fmt2 (_dec d.valor_vICMSUFDest) := by
  have hr : resolveReceitaEval receita (_dec d.valor_vICMSUFDest) (_dec d.valor_vST) = "100102" := by
    simp [resolveReceitaEval, hHint, hIcms]
  refine ⟨hr, ?_⟩
  simp [evaluate_gnre_need, hr, resolvePrincipalEval]

/-- Witness for C2 at a concrete invoice with ICMS-destination 15.00. -/
theorem c2_witness :
    resolveReceitaEval none (_dec nfeIcms.valor_vICMSUFDest) (_dec nfeIcms.valor_vST) = "100102" ∧
    (evaluate_gnre_need nfeIcms none none).valor_principal = fmt2 (_dec nfeIcms.valor_vICMSUFDest) :=
  c2_difal_resolution nfeIcms none (by decide) (by decide)

/-- C3 counterexample: a non-empty hint that is not six numeric digits, with
every tax amount zero, is returned verbatim by the evaluator, so the returned
code is neither null nor six digits. -/
theorem c3_counterexample :
    (evaluate_gnre_need emptyNfe (some "abc") none).receita = some "abc" ∧
    (pyIsdigit "abc" && pyLen "abc" == 6) = false := by decide

/-- C3 amended: a non-null revenue code returned by the evaluator is either
exactly six ASCII digits or the caller's hint string passed through verbatim;
the evaluator does not validate a non-inferable hint. -/
theorem c3_amended_shape (d : DadosNfe) (receita valor_principal : Option String)
    (c : String) (h : (evaluate_gnre_need d receita valor_principal).receita = some c) :
    (pyIsdigit c && pyLen c == 6) = true ∨ c = pyOr receita "" := by
  have hc : c = resolveReceitaEval receita (_dec d.valor_vICMSUFDest) (_dec d.valor_vST) := by
    cases hm : manualFlag d receita valor_principal <;> simp [evaluate_gnre_need, hm] at h
    exact h.2.symm
  rw [hc]
  simp only [resolveReceitaEval]
  by_cases h1 : (pyIsdigit (pyOr receita "") && pyLen (pyOr receita "") == 6) = true
  · rw [if_pos h1]
    right
    rfl
  · rw [if_neg h1]
    by_cases h2 : (_dec d.valor_vICMSUFDest).isPos = true
    · rw [if_pos h2]
      left
      decide
    · rw [if_neg h2]
      by_cases h3 : (_dec d.valor_vST).isPos = true
      · rw [if_pos h3]
        left
        decide
      · rw [if_neg h3]
        right
        rfl

/-- Witness for C3 amended at the concrete pass-through hint. -/
theorem c3_amended_witness :
    (pyIsdigit "abc" && pyLen "abc" == 6) = true ∨ "abc" = pyOr (some "abc") "" :=
  c3_amended_shape emptyNfe (some "abc") none "abc" (by decide)

/-- C5 counterexample: called with empty environment identifier and empty
receipt number the status-consultation builder does not fail at all: it
returns a complete document whose two mandatory-looking elements carry empty
text, so no validation error is ever raised. -/
theorem c5_counterexample :
    build_consulta_resultado_xml "" "" true false false =
      Elem.el "TConsLote_GNRE" [] none
        [Elem.el "ambiente" [] (some "") [],
         Elem.el "numeroRecibo" [] (some "") [],
         Elem.el "incluirPDFGuias" [] (some "S") []] := rfl

/-- C5 amended: the status-consultation builder performs no validation of the
environment identifier or the receipt number (it is total, never raising);
each of the three optional sub-elements is present with text S exactly when
its flag is true and is entirely omitted when its flag is false. -/
theorem c5_amended_flags (ambiente numero_recibo : String) (p a n : Bool) :
    childrenNamed (build_consulta_resultado_xml ambiente numero_recibo p a n) "incluirPDFGuias"
        = (if p then [Elem.el "incluirPDFGuias" [] (some "S") []] else []) ∧
    childrenNamed (build_consulta_resultado_xml ambiente numero_recibo p a n) "incluirArquivoPagamento"
        = (if a then [Elem.el "incluirArquivoPagamento" [] (some "S") []] else []) ∧
    childrenNamed (build_consulta_resultado_xml ambiente numero_recibo p a n) "incluirNoticias"
        = (if n then [Elem.el "incluirNoticias" [] (some "S") []] else []) ∧
    childNamed (build_consulta_resultado_xml ambiente numero_recibo p a n) "ambiente"
        = some (Elem.el "ambiente" [] (some ambiente) []) ∧
    childNamed (build_consulta_resultado_xml ambiente numero_recibo p a n) "numeroRecibo"
        = some (Elem.el "numeroRecibo" [] (some numero_recibo) []) := by
  cases p <;> cases a <;> cases n <;> exact ⟨rfl, rfl, rfl, rfl, rfl⟩

/-- Inversion of a successful validation prelude of the submission builder:
the returned components are the resolved ones and every check passed. -/
theorem loteValidate_ok (d : DadosNfe) (uf_favorecida : Option String) (receita0 : String)
    (valor_principal : Option String) (uf receita chave : String) (vprincipal : Dec)
    (h : loteValidate d uf_favorecida receita0 valor_principal =
      .ok (uf, receita, chave, vprincipal)) :
    uf = pyStrip (pyOr uf_favorecida (pyOr d.uf_destinatario "")) ∧
    loteReceita d receita0 = .ok receita ∧
    chave = pyStrip (pyOr d.chave_nfe "") ∧
    vprincipal = lotePrincipal d receita valor_principal ∧
    (chave != "" && pyIsdigit chave && decide (1 ≤ pyLen chave) &&
      decide (pyLen chave ≤ 44)) = true ∧
    vprincipal.nonneg = true := by
  simp only [loteValidate] at h
  split at h
  · exact absurd h (by simp)
  rcases hrec : loteReceita d receita0 with e | receita1 <;> simp only [hrec] at h
  · exact absurd h (by simp)
  split at h
  · exact absurd h (by simp)
  rename_i hr6
  split at h
  · exact absurd h (by simp)
  rename_i hid
  split at h
  · exact absurd h (by simp)
  rename_i hch
  split at h
  · exact absurd h (by simp)
  rename_i hnn
  rw [Except.ok.injEq] at h
  obtain ⟨h1, h2, h3, h4⟩ : _ ∧ _ ∧ _ ∧ _ := by simpa [Prod.ext_iff] using h
  subst h1
  subst h2
  subst h3
  subst h4
  refine ⟨rfl, ?_, rfl, rfl, ?_, ?_⟩
  · first
    | rfl
    | rw [hrec]
  · simpa [Nat.one_le_iff_ne_zero] using hch
  · simpa using hnn

/-- Inversion of a successful submission build: the result is the lot tree
constructed from the validated components and the resolved due date. -/
theorem build_lote_xml_ok (d : DadosNfe) (uf_favorecida : Option String) (receita0 : String)
    (detalhamento_receita produto doc_origem_tipo : Option String) (incluir_campo_107 : Bool)
    (valor_principal data_vencimento razao_social_emitente data_pagamento : Option String)
    (today : String) (lote : Elem)
    (h : build_lote_xml d uf_favorecida receita0 detalhamento_receita produto doc_origem_tipo
      incluir_campo_107 valor_principal data_vencimento razao_social_emitente data_pagamento
      today = .ok lote) :
    ∃ uf receita chave vprincipal,
      loteValidate d uf_favorecida receita0 valor_principal =
        .ok (uf, receita, chave, vprincipal) ∧
      lote = Elem.el "TLote_GNRE" [("versao", "2.00")] none
        [Elem.el "guias" [] none
          [loteGuiaElem d uf receita chave vprincipal detalhamento_receita produto
            doc_origem_tipo incluir_campo_107 razao_social_emitente data_pagamento
            (pyOr data_vencimento (pyOr (_date_only d.data_emissao) today))]] := by
  rcases hv : loteValidate d uf_favorecida receita0 valor_principal with e |
    ⟨uf, receita, chave, vprincipal⟩ <;> simp only [build_lote_xml, hv] at h
  · exact absurd h (by simp)
  · exact ⟨uf, receita, chave, vprincipal, rfl, by simpa using h.symm⟩

set_option maxHeartbeats 1600000 in
/-- The FCP, total and camposExtras entries of a built item, read off from
the construction of lines 184-245. -/
theorem loteItemElem_fields (d : DadosNfe) (receita chave : String) (vprincipal : Dec)
    (dt pr dot : Option String) (flag : Bool) (dtven : String) :
    valorTexts (loteItemElem d receita chave vprincipal dt pr dot flag dtven) "27" =
      (if (Dec.add (_dec d.valor_vFCPUFDest) (_dec d.valor_vFCPST)).isPos then
        [some (fmt2 (Dec.add (_dec d.valor_vFCPUFDest) (_dec d.valor_vFCPST)))]
       else []) ∧
    valorTexts (loteItemElem d receita chave vprincipal dt pr dot flag dtven) "21" =
      [some (fmt2 (Dec.add vprincipal (Dec.add (_dec d.valor_vFCPUFDest) (_dec d.valor_vFCPST))))] ∧
    childrenNamed (loteItemElem d receita chave vprincipal dt pr dot flag dtven) "camposExtras" =
      (if flag && chave != "" && pyLen (_digits (some chave)) == 44 then [campo107Elem chave]
       else []) := by
  simp only [loteItemElem, valorTexts, childrenNamed]
  cases h1 : strTruthy dt <;> cases h2 : strTruthy pr <;>
    cases h3 : (Dec.add (_dec d.valor_vFCPUFDest) (_dec d.valor_vFCPST)).isPos <;>
    cases h4 : strTruthy d.destinatario_cnpj || strTruthy d.destinatario_cpf <;>
    cases h5 : flag && chave != "" && pyLen (_digits (some chave)) == 44 <;>
    exact ⟨rfl, rfl, rfl⟩

/-- The municipio children of the issuer block: the element is appended
exactly when the raw field is non-empty, and it carries the normalized code
(possibly absent) as its text. -/
theorem contribEmit_municipio (d : DadosNfe) (uf : String) (razao : Option String) :
    childrenNamed (loteContribEmit d uf razao) "municipio" =
      (if strTruthy d.emitente_cod_mun then
        [Elem.el "municipio" [] (_mun5 d.emitente_cod_mun) []]
       else []) := by
  simp only [loteContribEmit, childrenNamed]
  cases h1 : strTruthy razao <;> cases h2 : strTruthy d.emitente_nome <;>
    cases h3 : strTruthy d.emitente_endereco <;> cases h4 : strTruthy d.emitente_cod_mun <;>
    cases h5 : strTruthy d.uf_emitente <;> cases h6 : strTruthy d.emitente_cep <;>
    cases h7 : strTruthy d.emitente_telefone <;> rfl

/-- Navigation reaches the single item of a built lot tree. -/
theorem loteItem_tree (d : DadosNfe) (uf receita chave : String) (vprincipal : Dec)
    (dt pr dot : Option String) (flag : Bool) (razao dpag : Option String) (dtven : String) :
    loteItem (Elem.el "TLote_GNRE" [("versao", "2.00")] none
      [Elem.el "guias" [] none
        [loteGuiaElem d uf receita chave vprincipal dt pr dot flag razao dpag dtven]]) =
      some (loteItemElem d receita chave vprincipal dt pr dot flag dtven) := rfl

/-- Navigation reaches the issuer block of a built lot tree. -/
theorem loteEmitente_tree (d : DadosNfe) (uf receita chave : String) (vprincipal : Dec)
    (dt pr dot : Option String) (flag : Bool) (razao dpag : Option String) (dtven : String) :
    loteEmitente (Elem.el "TLote_GNRE" [("versao", "2.00")] none
      [Elem.el "guias" [] none
        [loteGuiaElem d uf receita chave vprincipal dt pr dot flag razao dpag dtven]]) =
      some (loteContribEmit d uf razao) := rfl

/-- On an all-digit string the digit filter is the identity. -/
theorem _digits_of_isdigit (s : String) (h : pyIsdigit s = true) : _digits (some s) = s := by
  obtain ⟨hne, hall⟩ := Bool.and_eq_true .. |>.mp h
  have hne' : s ≠ "" := by
    intro he
    subst he
    exact absurd hne (by decide)
  have hor : pyOr (some s) "" = s := by
    simp [pyOr, hne']
  unfold _digits
  rw [hor]
  have hfil : s.data.filter Char.isDigit = s.data :=
    List.filter_eq_self.mpr (by simpa using hall)
  rw [hfil]

/-- A revenue code resolved by the submission builder always satisfies the
re-checked six-digit condition of line 108. -/
theorem loteReceita_ok_valid (d : DadosNfe) (receita0 receita : String)
    (h : loteReceita d receita0 = .ok receita) :
    (receita != "" && pyLen receita == 6 && pyIsdigit receita) = true := by
  unfold loteReceita at h
  split at h
  · rename_i hcond
    rw [Except.ok.injEq] at h
    subst h
    simp only [Bool.and_eq_true] at hcond ⊢
    exact ⟨⟨hcond.1.1, hcond.2⟩, hcond.1.2⟩
  split at h
  · rw [Except.ok.injEq] at h
    subst h
    decide
  split at h
  · rw [Except.ok.injEq] at h
    subst h
    decide
  all_goals cases h

/-- C6: in every successfully built submission guide the FCP value entry
(valor with tipo 27) is present if and only if the FCP-destination plus
FCP-ST total is positive, in which case it carries that total, and the total
value entry (valor with tipo 21, equal to principal plus FCP total) is always
present. -/
theorem c6_fcp_and_total (d : DadosNfe) (uf_favorecida : Option String) (receita0 : String)
    (detalhamento_receita produto doc_origem_tipo : Option String) (incluir_campo_107 : Bool)
    (valor_principal data_vencimento razao_social_emitente data_pagamento : Option String)
    (today : String) (lote : Elem)
    (h : build_lote_xml d uf_favorecida receita0 detalhamento_receita produto doc_origem_tipo
      incluir_campo_107 valor_principal data_vencimento razao_social_emitente data_pagamento
      today = .ok lote) :
    ∃ uf receita chave vprincipal item,
      loteValidate d uf_favorecida receita0 valor_principal =
        .ok (uf, receita, chave, vprincipal) ∧
      loteItem lote = some item ∧
      valorTexts item "27" =
        (if (Dec.add (_dec d.valor_vFCPUFDest) (_dec d.valor_vFCPST)).isPos then
          [some (fmt2 (Dec.add (_dec d.valor_vFCPUFDest) (_dec d.valor_vFCPST)))]
         else []) ∧
      valorTexts item "21" =
        [some (fmt2 (Dec.add vprincipal
          (Dec.add (_dec d.valor_vFCPUFDest) (_dec d.valor_vFCPST))))] := by
  obtain ⟨uf, receita, chave, vprincipal, hv, hl⟩ :=
    build_lote_xml_ok d uf_favorecida receita0 detalhamento_receita produto doc_origem_tipo
      incluir_campo_107 valor_principal data_vencimento razao_social_emitente data_pagamento
      today lote h
  subst hl
  obtain ⟨h27, h21, -⟩ :=
    loteItemElem_fields d receita chave vprincipal detalhamento_receita produto
      doc_origem_tipo incluir_campo_107
      (pyOr data_vencimento (pyOr (_date_only d.data_emissao) today))
  exact ⟨uf, receita, chave, vprincipal, _, hv,
    loteItem_tree d uf receita chave vprincipal detalhamento_receita produto
      doc_origem_tipo incluir_campo_107 razao_social_emitente data_pagamento
      (pyOr data_vencimento (pyOr (_date_only d.data_emissao) today)), h27, h21⟩

/-- Witness for C6 at a concrete build with a positive FCP amount. -/
theorem c6_witness :
    ∃ uf receita chave vprincipal item,
      loteValidate nfeFcp (some "SP") "" none = .ok (uf, receita, chave, vprincipal) ∧
      loteItem (okElem (build_lote_xml nfeFcp (some "SP") "" none none none true none none
        none none "2025-06-01")) = some item ∧
      valorTexts item "27" =
        (if (Dec.add (_dec nfeFcp.valor_vFCPUFDest) (_dec nfeFcp.valor_vFCPST)).isPos then
          [some (fmt2 (Dec.add (_dec nfeFcp.valor_vFCPUFDest) (_dec nfeFcp.valor_vFCPST)))]
         else []) ∧
      valorTexts item "21" =
        [some (fmt2 (Dec.add vprincipal
          (Dec.add (_dec nfeFcp.valor_vFCPUFDest) (_dec nfeFcp.valor_vFCPST))))] :=
  c6_fcp_and_total nfeFcp (some "SP") "" none none none true none none none none
    "2025-06-01"
    (okElem (build_lote_xml nfeFcp (some "SP") "" none none none true none none none none
      "2025-06-01")) rfl

/-- C7: in every successfully built submission guide the extra-field block
with code 107 is present if and only if the incluir_campo_107 flag is true
and the invoice key is exactly 44 numeric digits; a key of 43 digits or
fewer never produces the block even when the flag is true. -/
theorem c7_campo107 (d : DadosNfe) (uf_favorecida : Option String) (receita0 : String)
    (detalhamento_receita produto doc_origem_tipo : Option String) (incluir_campo_107 : Bool)
    (valor_principal data_vencimento razao_social_emitente data_pagamento : Option String)
    (today : String) (lote : Elem)
    (h : build_lote_xml d uf_favorecida receita0 detalhamento_receita produto doc_origem_tipo
      incluir_campo_107 valor_principal data_vencimento razao_social_emitente data_pagamento
      today = .ok lote) :
    ∃ uf receita chave vprincipal item,
      loteValidate d uf_favorecida receita0 valor_principal =
        .ok (uf, receita, chave, vprincipal) ∧
      chave = pyStrip (pyOr d.chave_nfe "") ∧
      loteItem lote = some item ∧
      (childrenNamed item "camposExtras" ≠ [] ↔
        incluir_campo_107 = true ∧ pyLen chave = 44 ∧ chave.data.all Char.isDigit = true) := by
  obtain ⟨uf, receita, chave, vprincipal, hv, hl⟩ :=
    build_lote_xml_ok d uf_favorecida receita0 detalhamento_receita produto doc_origem_tipo
      incluir_campo_107 valor_principal data_vencimento razao_social_emitente data_pagamento
      today lote h
  subst hl
  obtain ⟨-, -, hce⟩ :=
    loteItemElem_fields d receita chave vprincipal detalhamento_receita produto
      doc_origem_tipo incluir_campo_107
      (pyOr data_vencimento (pyOr (_date_only d.data_emissao) today))
  obtain ⟨-, -, hchv, -, hchk, -⟩ :=
    loteValidate_ok d uf_favorecida receita0 valor_principal uf receita chave vprincipal hv
  simp only [Bool.and_eq_true] at hchk
  have hne : (chave != "") = true := hchk.1.1.1
  have hdig : pyIsdigit chave = true := hchk.1.1.2
  have hall : chave.data.all Char.isDigit = true := (Bool.and_eq_true .. |>.mp hdig).2
  have hdg : _digits (some chave) = chave := _digits_of_isdigit chave hdig
  refine ⟨uf, receita, chave, vprincipal, _, hv, hchv,
    loteItem_tree d uf receita chave vprincipal detalhamento_receita produto
      doc_origem_tipo incluir_campo_107 razao_social_emitente data_pagamento
      (pyOr data_vencimento (pyOr (_date_only d.data_emissao) today)), ?_⟩
  rw [hce, hdg, hne]
  cases incluir_campo_107 <;> by_cases h44 : pyLen chave = 44
  · simp [h44, hall]
  · simp [h44]
  · simp [h44, hall]
  · simp [h44]

/-- Witness for C7 at a concrete build with a 44-digit key and the flag on. -/
theorem c7_witness :
    ∃ uf receita chave vprincipal item,
      loteValidate nfeBuild (some "SP") "" none = .ok (uf, receita, chave, vprincipal) ∧
      chave = pyStrip (pyOr nfeBuild.chave_nfe "") ∧
      loteItem (okElem (build_lote_xml nfeBuild (some "SP") "" none none none true none none
        none none "2025-06-01")) = some item ∧
      (childrenNamed item "camposExtras" ≠ [] ↔
        true = true ∧ pyLen chave = 44 ∧ chave.data.all Char.isDigit = true) :=
  c7_campo107 nfeBuild (some "SP") "" none none none true none none none none "2025-06-01"
    (okElem (build_lote_xml nfeBuild (some "SP") "" none none none true none none none none
      "2025-06-01")) rfl

/-- C8 amended: a seven-digit code normalizes to its last five digits (the
two-digit state prefix stripped); a five-digit code passes through; a code of
more than five digits other than seven is truncated to its last five digits;
fewer than five digits (including the empty and absent cases) yield absence;
but in a built guide the issuer municipality element is present exactly when
the raw field is non-empty, carrying the normalized and possibly absent text,
so a supplied field that normalizes to absence still produces an (empty)
municipality element. -/
theorem c8_mun5_normalization (cmun : String) (d : DadosNfe) (uf_favorecida : Option String)
    (receita0 : String) (detalhamento_receita produto doc_origem_tipo : Option String)
    (incluir_campo_107 : Bool)
    (valor_principal data_vencimento razao_social_emitente data_pagamento : Option String)
    (today : String) (lote : Elem)
    (h : build_lote_xml d uf_favorecida receita0 detalhamento_receita produto doc_origem_tipo
      incluir_campo_107 valor_principal data_vencimento razao_social_emitente data_pagamento
      today = .ok lote) :
    (pyLen (_digits (some cmun)) = 7 →
      _mun5 (some cmun) = some (String.mk ((_digits (some cmun)).data.drop 2))) ∧
    (pyLen (_digits (some cmun)) = 5 → _mun5 (some cmun) = some (_digits (some cmun))) ∧
    (5 < pyLen (_digits (some cmun)) → pyLen (_digits (some cmun)) ≠ 7 →
      _mun5 (some cmun) = some (String.mk
        ((_digits (some cmun)).data.drop (pyLen (_digits (some cmun)) - 5)))) ∧
    (pyLen (_digits (some cmun)) < 5 → _mun5 (some cmun) = none) ∧
    _mun5 none = none ∧
    ∃ ce, loteEmitente lote = some ce ∧
      childrenNamed ce "municipio" =
        (if strTruthy d.emitente_cod_mun then
          [Elem.el "municipio" [] (_mun5 d.emitente_cod_mun) []]
         else []) := by
  refine ⟨?_, ?_, ?_, ?_, rfl, ?_⟩
  · intro h7
    have hne : cmun ≠ "" := by
      intro he
      rw [he] at h7
      exact absurd h7 (by decide)
    have h7' : ((_digits (some cmun)).data.drop 2).length = 5 := by
      simp only [List.length_drop]
      simp only [pyLen] at h7
      omega
    have htake : ((_digits (some cmun)).data.drop 2).take 5 = (_digits (some cmun)).data.drop 2 := by
      rw [← h7']
      exact List.take_length _
    simp only [pyLen] at h7
    simp [_mun5, strTruthy, hne, pyLen, h7, pySlice, htake]
  · intro h5
    have hne : cmun ≠ "" := by
      intro he
      rw [he] at h5
      exact absurd h5 (by decide)
    simp only [pyLen] at h5
    simp [_mun5, strTruthy, hne, pyLen, h5]
  · intro hgt hne7
    have hne : cmun ≠ "" := by
      intro he
      rw [he] at hgt
      exact absurd hgt (by decide)
    simp only [pyLen, String.length_data] at hgt hne7
    have hne5 : (_digits (some cmun)).length ≠ 5 := by omega
    simp [_mun5, strTruthy, hne, pyLen, hne7, hne5, hgt]
  · intro hlt
    by_cases hc : cmun = ""
    · subst hc
      rfl
    · simp only [pyLen, String.length_data] at hlt
      have a7 : (_digits (some cmun)).length ≠ 7 := by omega
      have a5 : (_digits (some cmun)).length ≠ 5 := by omega
      have a5' : ¬5 < (_digits (some cmun)).length := by omega
      simp [_mun5, strTruthy, hc, pyLen, a7, a5, a5']
  · obtain ⟨uf, receita, chave, vprincipal, hv, hl⟩ :=
      build_lote_xml_ok d uf_favorecida receita0 detalhamento_receita produto doc_origem_tipo
        incluir_campo_107 valor_principal data_vencimento razao_social_emitente data_pagamento
        today lote h
    subst hl
    exact ⟨_, loteEmitente_tree d uf receita chave vprincipal detalhamento_receita produto
      doc_origem_tipo incluir_campo_107 razao_social_emitente data_pagamento
      (pyOr data_vencimento (pyOr (_date_only d.data_emissao) today)),
      contribEmit_municipio d uf razao_social_emitente⟩

/-- C8 counterexample: the invoice supplies municipality code 123, which
normalizes to absence, yet the built guide still contains a municipio element
(with no text): the claim that no element appears is false. -/
theorem c8_counterexample :
    okEmitMunTexts (build_lote_xml nfeMun (some "SP") "" none none none true none none none
      none "2025-06-01") = some [none] ∧
    _mun5 (some "123") = none := by decide

/-- Witness for C8 at the seven-digit code 3550308 and a concrete build. -/
theorem c8_witness :
    (pyLen (_digits (some "3550308")) = 7 →
      _mun5 (some "3550308") = some (String.mk ((_digits (some "3550308")).data.drop 2))) ∧
    (pyLen (_digits (some "3550308")) = 5 →
      _mun5 (some "3550308") = some (_digits (some "3550308"))) ∧
    (5 < pyLen (_digits (some "3550308")) → pyLen (_digits (some "3550308")) ≠ 7 →
      _mun5 (some "3550308") = some (String.mk
        ((_digits (some "3550308")).data.drop (pyLen (_digits (some "3550308")) - 5)))) ∧
    (pyLen (_digits (some "3550308")) < 5 → _mun5 (some "3550308") = none) ∧
    _mun5 none = none ∧
    ∃ ce, loteEmitente (okElem (build_lote_xml nfeBuild (some "SP") "" none none none true
      none none none none "2025-06-01")) = some ce ∧
      childrenNamed ce "municipio" =
        (if strTruthy nfeBuild.emitente_cod_mun then
          [Elem.el "municipio" [] (_mun5 nfeBuild.emitente_cod_mun) []]
         else []) :=
  c8_mun5_normalization "3550308" nfeBuild (some "SP") "" none none none true none none
    none none "2025-06-01"
    (okElem (build_lote_xml nfeBuild (some "SP") "" none none none true none none none none
      "2025-06-01")) rfl

/-- C4 counterexample: with favored state SP, the six-digit revenue code
999999, every tax amount zero and an otherwise valid invoice, the builder
succeeds instead of raising a validation error. -/
theorem c4_counterexample :
    (build_lote_xml nfeZero (some "SP") "999999" none none none true none none none none
      "2025-06-01").isOk = true := by decide

/-- C4 amended: any six-digit numeric revenue code, 999999 included, is
accepted verbatim by the submission builder even when every tax amount is
zero; with an issuer tax-ID and a well-formed invoice key the build succeeds,
so the code is not treated as invalid; a validation error in this scenario
can only come from some other precondition. -/
theorem c4_amended_code_accepted (d : DadosNfe)
    (detalhamento_receita produto doc_origem_tipo : Option String) (incluir_campo_107 : Bool)
    (data_vencimento razao_social_emitente data_pagamento : Option String) (today : String)
    (hst : (_dec d.valor_vST).m = 0) (hicms : (_dec d.valor_vICMSUFDest).m = 0)
    (hid : (strTruthy d.emitente_cnpj || strTruthy d.emitente_cpf) = true)
    (hch : (pyStrip (pyOr d.chave_nfe "") != "" && pyIsdigit (pyStrip (pyOr d.chave_nfe "")) &&
      decide (1 ≤ pyLen (pyStrip (pyOr d.chave_nfe ""))) &&
      decide (pyLen (pyStrip (pyOr d.chave_nfe "")) ≤ 44)) = true) :
    ∃ lote, build_lote_xml d (some "SP") "999999" detalhamento_receita produto doc_origem_tipo
      incluir_campo_107 none data_vencimento razao_social_emitente data_pagamento today =
      .ok lote := by
  have hpr : lotePrincipal d "999999" none =
      Dec.add (_dec d.valor_vST) (_dec d.valor_vICMSUFDest) := rfl
  have hm : (lotePrincipal d "999999" none).m = 0 := by
    rw [hpr]
    unfold Dec.add
    split <;> simp [hst, hicms]
  have hnn : (lotePrincipal d "999999" none).nonneg = true := by
    simp [Dec.nonneg, hm]
  have e0 : (pyStrip (pyOr (some "SP") (pyOr d.uf_destinatario "")) == "") = false := rfl
  have hre : loteReceita d "999999" = Except.ok "999999" := rfl
  have e3 : pyLen "999999" = 6 := by decide
  have e4 : pyIsdigit "999999" = true := by decide
  have hval : loteValidate d (some "SP") "999999" none =
      .ok (pyStrip (pyOr (some "SP") (pyOr d.uf_destinatario "")), "999999",
        pyStrip (pyOr d.chave_nfe ""), lotePrincipal d "999999" none) := by
    simp only [loteValidate, hre]
    simp [e0, e3, e4, hid, hch, hnn]
  exact ⟨Elem.el "TLote_GNRE" [("versao", "2.00")] none
    [Elem.el "guias" [] none
      [loteGuiaElem d (pyStrip (pyOr (some "SP") (pyOr d.uf_destinatario ""))) "999999"
        (pyStrip (pyOr d.chave_nfe "")) (lotePrincipal d "999999" none) detalhamento_receita
        produto doc_origem_tipo incluir_campo_107 razao_social_emitente data_pagamento
        (pyOr data_vencimento (pyOr (_date_only d.data_emissao) today))]],
    by simp only [build_lote_xml, hval]⟩

/-- Witness for C4 amended at the concrete all-zero invoice. -/
theorem c4_amended_witness :
    ∃ lote, build_lote_xml nfeZero (some "SP") "999999" none none none true none none none
      none "2025-06-01" = .ok lote :=
  c4_amended_code_accepted nfeZero none none none true none none none "2025-06-01"
    (by decide) (by decide) (by decide) (by decide)

/-- The only error message the revenue resolution step can produce. -/
theorem loteReceita_error (d : DadosNfe) (receita0 : String) (e : String)
    (h : loteReceita d receita0 = .error e) :
    e = "receita deve ter 6 dígitos ou ser dedutível pelos valores da NF-e" := by
  unfold loteReceita at h
  split at h
  · cases h
  split at h
  · cases h
  split at h
  · cases h
  · injection h with h'
    exact h'.symm

/-- A principal-value error from the validation prelude pins down a resolved
revenue code whose principal is negative. -/
theorem loteValidate_principal_error (d : DadosNfe) (uf_favorecida : Option String)
    (receita0 : String) (vp : Option String)
    (h : loteValidate d uf_favorecida receita0 vp = .error "valor principal inválido") :
    ∃ receita, loteReceita d receita0 = .ok receita ∧
      (lotePrincipal d receita vp).nonneg = false := by
  simp only [loteValidate] at h
  split at h
  · simp at h
  rcases hrec : loteReceita d receita0 with e | receita1 <;> simp only [hrec] at h
  · have he := loteReceita_error d receita0 e hrec
    subst he
    simp at h
  split at h
  · simp at h
  split at h
  · simp at h
  split at h
  · simp at h
  split at h
  · rename_i hcond
    refine ⟨receita1, ?_, by simpa using hcond⟩
    first
    | rfl
    | exact hrec
  · simp at h

/-- The resolved due date ignores the ambient current date when an explicit
due date or a parseable issue date is present. -/
theorem pyOr_due_date (a b : Option String) (t1 t2 : String)
    (h : strTruthy a = true ∨ strTruthy b = true) :
    pyOr a (pyOr b t1) = pyOr a (pyOr b t2) := by
  rcases a with _ | s
  · rcases h with h | h
    · exact absurd h (by decide)
    · rcases b with _ | sb
      · exact absurd h (by decide)
      · have hsb : sb ≠ "" := by simpa [strTruthy] using h
        simp [pyOr, hsb]
  · by_cases hs : s = ""
    · subst hs
      rcases h with h | h
      · exact absurd h (by simp [strTruthy])
      · rcases b with _ | sb
        · exact absurd h (by decide)
        · have hsb : sb ≠ "" := by simpa [strTruthy] using h
          simp [pyOr, hsb]
    · simp [pyOr, hs]

/-- C9 amended: each operation of the embedding is a function of its explicit
arguments; the one ambient input of the source is the current date read by
the submission builder, and its result is independent of that ambient date
exactly when an explicit due date or a parseable invoice issue date is
supplied - with both absent the built guide embeds the ambient date. -/
theorem c9_amended_deterministic (d : DadosNfe) (uf_favorecida : Option String)
    (receita0 : String) (detalhamento_receita produto doc_origem_tipo : Option String)
    (incluir_campo_107 : Bool)
    (valor_principal data_vencimento razao_social_emitente data_pagamento : Option String)
    (t1 t2 : String)
    (h : strTruthy data_vencimento = true ∨ strTruthy (_date_only d.data_emissao) = true) :
    build_lote_xml d uf_favorecida receita0 detalhamento_receita produto doc_origem_tipo
      incluir_campo_107 valor_principal data_vencimento razao_social_emitente data_pagamento
      t1 =
    build_lote_xml d uf_favorecida receita0 detalhamento_receita produto doc_origem_tipo
      incluir_campo_107 valor_principal data_vencimento razao_social_emitente data_pagamento
      t2 := by
  have hd := pyOr_due_date data_vencimento (_date_only d.data_emissao) t1 t2 h
  simp only [build_lote_xml, hd]

/-- Witness for C9 amended: with an explicit due date the ambient date does
not influence the built guide. -/
theorem c9_amended_witness :
    build_lote_xml nfeBuild (some "SP") "" none none none true none (some "2025-03-10")
      none none "2025-01-01" =
    build_lote_xml nfeBuild (some "SP") "" none none none true none (some "2025-03-10")
      none none "2025-01-02" :=
  c9_amended_deterministic nfeBuild (some "SP") "" none none none true none
    (some "2025-03-10") none none "2025-01-01" "2025-01-02" (Or.inl (by decide))

/-- C9 counterexample: with the due date and the issue date both absent, two
builds with identical explicit arguments but different ambient dates give
different guides, so the submission builder is not a function of its explicit
inputs alone. -/
theorem c9_counterexample :
    build_lote_xml nfeBuild (some "SP") "" none none none true none none none none
      "2025-01-01" ≠
    build_lote_xml nfeBuild (some "SP") "" none none none true none none none none
      "2025-01-02" := by
  intro hcontra
  have h2 := congrArg okDtvenText hcontra
  exact absurd h2 (by decide)

/-- C10: once the favored state, revenue, issuer identification and invoice
key checks pass, a negative resolved principal makes the submission builder
return the validation error valor principal invalido (in the source the
ValueError is raised on line 132, before any XML element is constructed);
and a non-negative resolved principal never produces this error. -/
theorem c10_negative_principal (d : DadosNfe) (uf_favorecida : Option String)
    (receita0 : String) (detalhamento_receita produto doc_origem_tipo : Option String)
    (incluir_campo_107 : Bool)
    (valor_principal data_vencimento razao_social_emitente data_pagamento : Option String)
    (today : String) (receita : String)
    (hrec : loteReceita d receita0 = .ok receita) :
    (((lotePrincipal d receita valor_principal).nonneg = false ∧
      (pyStrip (pyOr uf_favorecida (pyOr d.uf_destinatario "")) == "") = false ∧
      (strTruthy d.emitente_cnpj || strTruthy d.emitente_cpf) = true ∧
      (pyStrip (pyOr d.chave_nfe "") != "" && pyIsdigit (pyStrip (pyOr d.chave_nfe "")) &&
        decide (1 ≤ pyLen (pyStrip (pyOr d.chave_nfe ""))) &&
        decide (pyLen (pyStrip (pyOr d.chave_nfe "")) ≤ 44)) = true) →
      build_lote_xml d uf_favorecida receita0 detalhamento_receita produto doc_origem_tipo
        incluir_campo_107 valor_principal data_vencimento razao_social_emitente data_pagamento
        today = .error "valor principal inválido") ∧
    ((lotePrincipal d receita valor_principal).nonneg = true →
      build_lote_xml d uf_favorecida receita0 detalhamento_receita produto doc_origem_tipo
        incluir_campo_107 valor_principal data_vencimento razao_social_emitente data_pagamento
        today ≠ .error "valor principal inválido") := by
  have hrv := loteReceita_ok_valid d receita0 receita hrec
  constructor
  · rintro ⟨hneg, h1, h2, h3⟩
    simp [build_lote_xml, loteValidate, hrec, hrv, h1, h2, h3, hneg]
  · intro hpos hcontra
    rcases hb : loteValidate d uf_favorecida receita0 valor_principal with e | tup
    · simp only [build_lote_xml, hb] at hcontra
      rw [Except.error.injEq] at hcontra
      subst hcontra
      obtain ⟨receita2, hrec2, hneg⟩ :=
        loteValidate_principal_error d uf_favorecida receita0 valor_principal hb
      rw [hrec, Except.ok.injEq] at hrec2
      subst hrec2
      rw [hpos] at hneg
      cases hneg
    · simp only [build_lote_xml, hb] at hcontra
      simp at hcontra

/-- Witness for C10 at a concrete negative principal override. -/
theorem c10_witness :
    build_lote_xml nfeBuild (some "SP") "100102" none none none true (some "-1") none none
      none "2025-06-01" = .error "valor principal inválido" := by
  have h := c10_negative_principal nfeBuild (some "SP") "100102" none none none true
    (some "-1") none none none "2025-06-01" "100102" rfl
  exact h.1 ⟨by decide, by decide, by decide, by decide⟩

end Gnre
